import Mathlib

/-
Verification of the shared async-client pipeline of the freeDictionaryAPI
library (file freedictionaryapi/clients/base_async_client.py).

The shallow embedding below translates the shared client logic
(fetch_json, fetchParser, fetch_word) directly from the source.  The
collaborators that the source imports from sibling modules that are not
part of the sources at hand (the language registry, the URL builder
_generate_url, the response analyzer _analyze_response, and the schema
parser DictionaryApiParser) are modelled from the specification, as
marked on each definition.

Client methods are embedded as pure functions from a client value to a
FetchOutcome carrying three fields:
  - result : the returned value or the raised exception (Except);
  - trace  : the ordered list of collaborator invocations performed by
             the call, recording the argument of each invocation
             (this makes ordering and exactly-once claims statable);
  - client : the client value after the call (the state frame).
-/

namespace FreeDictionaryApi

/-- Decoded JSON values, the bodies produced by the transport
(`await response.json()` in the source). -/
inductive Json where
  | null : Json
  | bool : Bool → Json
  | num : Int → Json
  | str : String → Json
  | arr : List Json → Json
  | obj : List (String × Json) → Json

/-- Modelled from the spec: the Language Registry (sections 3 and 4.1) is a
closed enumeration of supported language identifiers; the module
freedictionaryapi/languages.py is not among the sources at hand.  A
representative closed subset is embedded. -/
inductive LanguageCodes where
  | english
  | hindi
  | spanish
  | french
  | russian
  deriving DecidableEq

/-- Modelled from the spec: the API locale string of each language code. -/
def LanguageCodes.value : LanguageCodes → String
  | .english => "en"
  | .hindi => "hi"
  | .spanish => "es"
  | .french => "fr"
  | .russian => "ru"

/-- Modelled from the spec: the default locale used when the caller
supplies no explicit language (section 4.1: English). -/
def DEFAULT_LANGUAGE_CODE : LanguageCodes := .english

/-- The exception taxonomy of the library (spec section 7), plus a
constructor standing for arbitrary transport-level exceptions
(connection errors, timeouts) that the transport collaborator may raise. -/
inductive FetchError where
  | wordNotFound (url : String) (statusCode : Int) (message : String)
  | dictionaryApiError (url : String) (statusCode : Int) (message : String)
  | parsingError (message : String)
  | transportError (message : String)
  deriving DecidableEq

/-- Field lookup in a decoded JSON object; any other value has no fields. -/
def Json.getField : Json → String → Option Json
  | .obj fields, key => fields.lookup key
  | _, _ => none

/-- A decoded JSON string value, when the value is a string. -/
def Json.asString : Json → Option String
  | .str s => some s
  | _ => none

/-- String value of a field, when present and a string. -/
def getOptString (j : Json) (key : String) : Option String :=
  match j.getField key with
  | some (.str s) => some s
  | _ => none

/-- List-of-strings value of a field, defaulting to the empty list when
the field is absent; non-string elements are skipped. -/
def getStringList (j : Json) (key : String) : List String :=
  match j.getField key with
  | some (.arr xs) => xs.filterMap Json.asString
  | _ => []

/-- List value of a field, defaulting to the empty list when absent. -/
def getList (j : Json) (key : String) : List Json :=
  match j.getField key with
  | some (.arr xs) => xs
  | _ => []

/-- Percent-encoding of one character for path inclusion: unreserved
characters stand for themselves, every other character is written as the
percent-encoded bytes of its UTF-8 encoding. -/
def percentEncodeChar (c : Char) : String :=
  if c.isAlphanum || c = '-' || c = '_' || c = '.' || c = '~' then
    String.singleton c
  else
    String.join (((String.singleton c).toUTF8.toList).map fun b =>
      "%" ++ String.singleton (Nat.digitChar (b.toNat / 16)) ++
        String.singleton (Nat.digitChar (b.toNat % 16)))

/-- Percent-encoding of a word for inclusion in the URL path. -/
def percentEncode (s : String) : String :=
  String.join (s.toList.map percentEncodeChar)

/-- Modelled from the spec: the URL builder `_generate_url` (section 4.2)
of the client interface module, which is not among the sources at hand.
It resolves the optional language code through the registry default and
composes the endpoint URL from the base pattern, the locale string and
the percent-encoded word; it returns the URL together with the language
code actually used. -/
def generate_url (word : String) (language_code : Option LanguageCodes) :
    String × LanguageCodes :=
  let resolved := language_code.getD DEFAULT_LANGUAGE_CODE
  ("https://api.dictionaryapi.dev/api/v2/entries/" ++ resolved.value ++ "/" ++
    percentEncode word, resolved)

/-- The conventional message field of an error body, with the generic
fallback used when the field is absent (spec section 4.3). -/
def extractMessage (body : Json) : String :=
  match body.getField "message" with
  | some (.str s) => s
  | _ => "API has returned an unexpected error."

/-- Modelled from the spec: the response analyzer `_analyze_response`
(section 4.3) of the client interface module, which is not among the
sources at hand.  A status in the success range 200-299 returns the body
unchanged; status 404 raises WordNotFoundError; every other status
raises DictionaryApiError carrying the status code, the originating URL
and the extracted message. -/
def analyze_response (url : String) (statusCode : Int) (body : Json) :
    Except FetchError Json :=
  if 200 ≤ statusCode ∧ statusCode ≤ 299 then
    .ok body
  else if statusCode = 404 then
    .error (.wordNotFound url statusCode (extractMessage body))
  else
    .error (.dictionaryApiError url statusCode (extractMessage body))

/-- A pronunciation variant of a word (spec section 3). -/
structure Phonetic where
  text : Option String
  audio : Option String

/-- One definition of a meaning (spec section 3). -/
structure Definition where
  definition : String
  example_text : Option String
  synonyms : List String
  antonyms : List String

/-- One part-of-speech grouping of a word (spec section 3). -/
structure Meaning where
  partOfSpeech : String
  definitions : List Definition
  synonyms : List String
  antonyms : List String

/-- The root parsed entity (spec section 3). -/
structure Word where
  word : String
  phonetics : List Phonetic
  meanings : List Meaning

/-- Modelled from the spec: one phonetics entry of the Schema Parser
(section 4.4); entries lacking both text and audio are skipped. -/
def parsePhonetic (j : Json) : Option Phonetic :=
  match getOptString j "text", getOptString j "audio" with
  | none, none => none
  | text, audio => some ⟨text, audio⟩

/-- Modelled from the spec: one definition entry of the Schema Parser
(section 4.4); the definition text is required, the example and the
synonym/antonym lists default when absent. -/
def parseDefinition (j : Json) : Except FetchError Definition :=
  match getOptString j "definition" with
  | some d =>
      .ok ⟨d, getOptString j "example", getStringList j "synonyms",
        getStringList j "antonyms"⟩
  | none => .error (.parsingError "definition text is missing")

/-- Modelled from the spec: one meaning entry of the Schema Parser
(section 4.4); missing synonym/antonym lists default to empty. -/
def parseMeaning (j : Json) : Except FetchError Meaning := do
  let defs ← (getList j "definitions").mapM parseDefinition
  return ⟨(getOptString j "partOfSpeech").getD "", defs,
    getStringList j "synonyms", getStringList j "antonyms"⟩

/-- Modelled from the spec: the Schema Parser `parse` (section 4.4); the
module freedictionaryapi/parsers.py is not among the sources at hand.
An empty entry sequence fails with ParsingError; the first entry must
carry the word string; phonetics and meanings are collected across all
entries in order. -/
def parse (decoded_body : Json) : Except FetchError Word :=
  match decoded_body with
  | .arr [] => .error (.parsingError "API response is an empty list")
  | .arr (first :: rest) =>
      match getOptString first "word" with
      | none => .error (.parsingError "word field is missing")
      | some w => do
          let entries := first :: rest
          let meanings ← ((entries.map fun entry =>
            getList entry "meanings").flatten).mapM parseMeaning
          let phonetics := ((entries.map fun entry =>
            getList entry "phonetics").flatten).filterMap parsePhonetic
          return ⟨w, phonetics, meanings⟩
  | _ => .error (.parsingError "API response is not a list")

/-- Modelled from the spec: the parser handle DictionaryApiParser
(sections 4.4 and 4.5); its constructor receives the decoded body, which
it wraps. -/
structure DictionaryApiParser where
  data : Json

/-- Modelled from the spec: the `.word` accessor of the parser handle,
exposing the result of the Schema Parser on the wrapped body. -/
def DictionaryApiParser.word (p : DictionaryApiParser) :
    Except FetchError Word :=
  parse p.data

/-- An async client value: the three collaborators the shared fetch
pipeline calls, plus unrelated per-client state (a concrete transport
may hold e.g. a session object; the shared logic never touches it).
In the source, fetch_api_response is the abstract transport method and
the URL builder and response analyzer are inherited shared methods; all
three are fields here so that theorems can quantify over their
implementations. -/
structure BaseAsyncDictionaryApiClient where
  generate_url : String → Option LanguageCodes → String × LanguageCodes
  fetch_api_response : String → Except FetchError (Int × Json)
  analyze_response : String → Int → Json → Except FetchError Json
  extraState : Nat

/-- One collaborator invocation performed during a fetch call, with the
arguments it received. -/
inductive Event where
  | urlBuild (url : String) (resolved : LanguageCodes)
  | transportCall (url : String)
  | analyzeCall (url : String) (statusCode : Int) (body : Json)

/-- Number of transport invocations recorded in a trace. -/
def countTransportCalls (trace : List Event) : Nat :=
  trace.countP fun ev =>
    match ev with
    | .transportCall _ => true
    | _ => false

/-- Outcome of one client method call: returned value or raised
exception, the ordered collaborator invocations, and the client state
after the call. -/
structure FetchOutcome (α : Type) where
  result : Except FetchError α
  trace : List Event
  client : BaseAsyncDictionaryApiClient

/-- Embedding of fetch_json (base_async_client.py, lines 104-129):
resolve the URL and the language code through the URL builder, invoke
the transport primitive on the URL, run the status code and decoded
body through the response analyzer, return the analyzed response. -/
def fetch_json (c : BaseAsyncDictionaryApiClient) (word : String)
    (language_code : Option LanguageCodes) : FetchOutcome Json :=
  let p := c.generate_url word language_code
  let url := p.1
  let resolved := p.2
  match c.fetch_api_response url with
  | .error e =>
      ⟨.error e, [.urlBuild url resolved, .transportCall url], c⟩
  | .ok (response_status_code, json_response) =>
      match c.analyze_response url response_status_code json_response with
      | .error e =>
          ⟨.error e,
            [.urlBuild url resolved, .transportCall url,
              .analyzeCall url response_status_code json_response], c⟩
      | .ok analyzed_response =>
          ⟨.ok analyzed_response,
            [.urlBuild url resolved, .transportCall url,
              .analyzeCall url response_status_code json_response], c⟩

/-- Embedding of fetchParser (base_async_client.py, lines 131-148):
fetch the decoded JSON and hand it to the parser constructor. -/
def fetchParser (c : BaseAsyncDictionaryApiClient) (word : String)
    (language_code : Option LanguageCodes) : FetchOutcome DictionaryApiParser :=
  let o := fetch_json c word language_code
  match o.result with
  | .error e => ⟨.error e, o.trace, o.client⟩
  | .ok json_response => ⟨.ok ⟨json_response⟩, o.trace, o.client⟩

/-- Embedding of fetch_word (base_async_client.py, lines 150-168):
fetch the parser and read its word accessor. -/
def fetch_word (c : BaseAsyncDictionaryApiClient) (word : String)
    (language_code : Option LanguageCodes) : FetchOutcome Word :=
  let o := fetchParser c word language_code
  match o.result with
  | .error e => ⟨.error e, o.trace, o.client⟩
  | .ok parser =>
      match parser.word with
      | .error e => ⟨.error e, o.trace, o.client⟩
      | .ok w => ⟨.ok w, o.trace, o.client⟩

/-! ### Concrete values used by the witnesses -/

/-- A well-formed success body for the word hello. -/
def demoBody : Json :=
  .arr [.obj [("word", .str "hello"),
    ("phonetics", .arr [.obj [("text", .str "h")]]),
    ("meanings", .arr [.obj [("partOfSpeech", .str "exclamation"),
      ("definitions", .arr [.obj [("definition", .str "a greeting")]])]])]]

/-- The URL the modelled builder produces for hello in the default
language. -/
def demoUrl : String := "https://api.dictionaryapi.dev/api/v2/entries/en/hello"

/-- A client whose transport always succeeds with status 200 and the
demo body. -/
def okClient : BaseAsyncDictionaryApiClient :=
  ⟨generate_url, fun _ => .ok (200, demoBody), analyze_response, 0⟩

/-- The ok client with different unrelated per-client state. -/
def okClient2 : BaseAsyncDictionaryApiClient :=
  ⟨generate_url, fun _ => .ok (200, demoBody), analyze_response, 1⟩

/-- A client whose transport always raises a connection error. -/
def failClient : BaseAsyncDictionaryApiClient :=
  ⟨generate_url, fun _ => .error (.transportError "connection reset"),
    analyze_response, 0⟩

/-- A client whose transport always succeeds with the given status and
the demo body. -/
def statusClient (s : Int) : BaseAsyncDictionaryApiClient :=
  ⟨generate_url, fun _ => .ok (s, demoBody), analyze_response, 0⟩

/-- A concrete client built by supplying only the transport primitive:
the URL builder and the response analyzer are the shared ones of the
base class, plus arbitrary unrelated per-client state. -/
def mkClient (t : String → Except FetchError (Int × Json))
    (extra : Nat) : BaseAsyncDictionaryApiClient :=
  ⟨generate_url, t, analyze_response, extra⟩

/-- The shared fetch_json behavior as a function of the transport
primitive alone: build the URL, invoke the primitive, analyze. -/
def transport_pipeline (t : String → Except FetchError (Int × Json))
    (w : String) (lc : Option LanguageCodes) : Except FetchError Json :=
  match t (generate_url w lc).1 with
  | .error e => .error e
  | .ok (s, b) => analyze_response (generate_url w lc).1 s b

/-! ### Shared helper lemmas about the pipeline -/

/-- The URL builder treats an omitted language code exactly as the
registry default. -/
theorem generate_url_none (w : String) :
    generate_url w none = generate_url w (some DEFAULT_LANGUAGE_CODE) := rfl

/-- fetch_json never writes any field of the client. -/
theorem fetchJson_client (c : BaseAsyncDictionaryApiClient) (w : String)
    (lc : Option LanguageCodes) : (fetch_json c w lc).client = c := by
  unfold fetch_json
  dsimp only
  cases c.fetch_api_response (c.generate_url w lc).1 with
  | error e => rfl
  | ok sb =>
      obtain ⟨s, b⟩ := sb
      dsimp only
      cases c.analyze_response (c.generate_url w lc).1 s b <;> rfl

/-- fetchParser in terms of fetch_json: the result is wrapped by the
parser constructor, the trace and the client state are untouched. -/
theorem fetchParser_eq (c : BaseAsyncDictionaryApiClient) (w : String)
    (lc : Option LanguageCodes) :
    fetchParser c w lc =
      ⟨((fetch_json c w lc).result).map DictionaryApiParser.mk,
        (fetch_json c w lc).trace, (fetch_json c w lc).client⟩ := by
  unfold fetchParser
  dsimp only
  cases h : (fetch_json c w lc).result <;> rfl

/-- fetch_word in terms of fetchParser: the result is passed through
the word accessor, the trace and the client state are untouched. -/
theorem fetchWord_eq (c : BaseAsyncDictionaryApiClient) (w : String)
    (lc : Option LanguageCodes) :
    fetch_word c w lc =
      ⟨((fetchParser c w lc).result).bind DictionaryApiParser.word,
        (fetchParser c w lc).trace, (fetchParser c w lc).client⟩ := by
  unfold fetch_word
  dsimp only
  cases h : (fetchParser c w lc).result with
  | error e => rfl
  | ok p =>
      dsimp only [Except.bind]
      cases h2 : p.word <;> rfl

/-- Full description of fetch_json when the transport returns a pair. -/
theorem fetchJson_ok (c : BaseAsyncDictionaryApiClient) (w : String)
    (lc : Option LanguageCodes) (url : String) (resolved : LanguageCodes)
    (s : Int) (b : Json)
    (hbuild : c.generate_url w lc = (url, resolved))
    (htrans : c.fetch_api_response url = .ok (s, b)) :
    fetch_json c w lc =
      ⟨c.analyze_response url s b,
        [.urlBuild url resolved, .transportCall url, .analyzeCall url s b],
        c⟩ := by
  unfold fetch_json
  rw [hbuild]
  dsimp only
  rw [htrans]
  dsimp only
  cases h : c.analyze_response url s b <;> rfl

/-- Full description of fetch_json when the transport raises. -/
theorem fetchJson_transport_error (c : BaseAsyncDictionaryApiClient)
    (w : String) (lc : Option LanguageCodes) (url : String)
    (resolved : LanguageCodes) (e : FetchError)
    (hbuild : c.generate_url w lc = (url, resolved))
    (htrans : c.fetch_api_response url = .error e) :
    fetch_json c w lc =
      ⟨.error e, [.urlBuild url resolved, .transportCall url], c⟩ := by
  unfold fetch_json
  rw [hbuild]
  dsimp only
  rw [htrans]

/-- The trace of fetch_json records exactly one transport invocation. -/
theorem fetchJson_trace_count (c : BaseAsyncDictionaryApiClient)
    (w : String) (lc : Option LanguageCodes) :
    countTransportCalls (fetch_json c w lc).trace = 1 := by
  unfold fetch_json
  dsimp only
  cases c.fetch_api_response (c.generate_url w lc).1 with
  | error e => rfl
  | ok sb =>
      obtain ⟨s, b⟩ := sb
      dsimp only
      cases c.analyze_response (c.generate_url w lc).1 s b <;> rfl

/-- The first event of every fetch_json trace is the URL build with the
resolved language code. -/
theorem fetchJson_trace_head (c : BaseAsyncDictionaryApiClient)
    (w : String) (lc : Option LanguageCodes) (url : String)
    (resolved : LanguageCodes)
    (hbuild : c.generate_url w lc = (url, resolved)) :
    ((fetch_json c w lc).trace).head? = some (.urlBuild url resolved) := by
  unfold fetch_json
  rw [hbuild]
  dsimp only
  cases c.fetch_api_response url with
  | error e => rfl
  | ok sb =>
      obtain ⟨s, b⟩ := sb
      dsimp only
      cases c.analyze_response url s b <;> rfl

/-- The behavior of fetch_json depends only on the three collaborator
implementations, never on the rest of the client value. -/
theorem fetchJson_congr (c1 c2 : BaseAsyncDictionaryApiClient) (w : String)
    (lc : Option LanguageCodes)
    (hgu : c1.generate_url = c2.generate_url)
    (ht : c1.fetch_api_response = c2.fetch_api_response)
    (han : c1.analyze_response = c2.analyze_response) :
    fetch_json c1 w lc =
      ⟨(fetch_json c2 w lc).result, (fetch_json c2 w lc).trace, c1⟩ := by
  unfold fetch_json
  rw [hgu, ht, han]
  dsimp only
  cases c2.fetch_api_response (c2.generate_url w lc).1 with
  | error e => rfl
  | ok sb =>
      obtain ⟨s, b⟩ := sb
      dsimp only
      cases c2.analyze_response (c2.generate_url w lc).1 s b <;> rfl

/-! ### Claim theorems -/

/-- C1: For every word and optional language code, fetch_json first
resolves the pair (url, resolved language code) through the URL builder,
then invokes the transport primitive fetch_api_response exactly once
with exactly that url, then applies the response analyzer to that same
url together with the status code and decoded body the transport
returned, and returns the analyzer result unchanged; the trace records
these three steps in strictly this order with no other processing of
the body. -/
theorem fetch_json_pipeline_order (c : BaseAsyncDictionaryApiClient)
    (w : String) (lc : Option LanguageCodes) (url : String)
    (resolved : LanguageCodes) (s : Int) (b : Json)
    (hbuild : c.generate_url w lc = (url, resolved))
    (htrans : c.fetch_api_response url = .ok (s, b)) :
    fetch_json c w lc =
      ⟨c.analyze_response url s b,
        [.urlBuild url resolved, .transportCall url, .analyzeCall url s b],
        c⟩ ∧
    countTransportCalls (fetch_json c w lc).trace = 1 :=
  ⟨fetchJson_ok c w lc url resolved s b hbuild htrans,
    fetchJson_trace_count c w lc⟩

/-- Witness for C1 at the ok client, the word hello and no language
code. -/
theorem fetch_json_pipeline_order_witness :
    okClient.generate_url "hello" none = (demoUrl, .english) ∧
    okClient.fetch_api_response demoUrl = .ok (200, demoBody) ∧
    (fetch_json okClient "hello" none =
      ⟨okClient.analyze_response demoUrl 200 demoBody,
        [.urlBuild demoUrl .english, .transportCall demoUrl,
          .analyzeCall demoUrl 200 demoBody], okClient⟩ ∧
      countTransportCalls (fetch_json okClient "hello" none).trace = 1) :=
  ⟨rfl, rfl, fetch_json_pipeline_order okClient "hello" none demoUrl
    .english 200 demoBody rfl rfl⟩

/-- C2: For every word, optional language code and transport-produced
pair (status, body), fetch_json with the shared response analyzer
returns the decoded body unchanged when the status is in 200-299,
raises WordNotFoundError when the status is 404, and raises
DictionaryApiError carrying the status code, the originating URL and
the extracted message (the message field of the body, else the generic
fallback) for every other non-2xx status. -/
theorem fetch_json_status_classification (c : BaseAsyncDictionaryApiClient)
    (w : String) (lc : Option LanguageCodes) (url : String)
    (resolved : LanguageCodes) (s : Int) (b : Json)
    (han : c.analyze_response = analyze_response)
    (hbuild : c.generate_url w lc = (url, resolved))
    (htrans : c.fetch_api_response url = .ok (s, b)) :
    ((200 ≤ s ∧ s ≤ 299) → (fetch_json c w lc).result = .ok b) ∧
    (s = 404 → (fetch_json c w lc).result =
      .error (.wordNotFound url s (extractMessage b))) ∧
    (¬(200 ≤ s ∧ s ≤ 299) → s ≠ 404 → (fetch_json c w lc).result =
      .error (.dictionaryApiError url s (extractMessage b))) := by
  rw [fetchJson_ok c w lc url resolved s b hbuild htrans]
  dsimp only
  rw [han]
  unfold analyze_response
  refine ⟨fun hs => ?_, fun h404 => ?_, fun hns hn404 => ?_⟩
  · rw [if_pos hs]
  · subst h404
    rw [if_neg (by omega), if_pos rfl]
  · rw [if_neg hns, if_neg hn404]

/-- Witness for C2 at statuses 200, 404 and 500. -/
theorem fetch_json_status_classification_witness :
    (fetch_json (statusClient 200) "hello" none).result = .ok demoBody ∧
    (fetch_json (statusClient 404) "hello" none).result =
      .error (.wordNotFound demoUrl 404
        "API has returned an unexpected error.") ∧
    (fetch_json (statusClient 500) "hello" none).result =
      .error (.dictionaryApiError demoUrl 500
        "API has returned an unexpected error.") :=
  ⟨(fetch_json_status_classification (statusClient 200) "hello" none demoUrl
      .english 200 demoBody rfl rfl rfl).1 (by omega),
    (fetch_json_status_classification (statusClient 404) "hello" none demoUrl
      .english 404 demoBody rfl rfl rfl).2.1 rfl,
    (fetch_json_status_classification (statusClient 500) "hello" none demoUrl
      .english 500 demoBody rfl rfl rfl).2.2 (by omega) (by omega)⟩

/-- C3: Any exception raised by the transport primitive, and any
exception raised by the response analyzer on the pair the transport
produced, propagates unchanged through fetch_json, fetchParser and
fetch_word to the immediate caller: the shared logic neither catches,
wraps, reinterprets nor suppresses it. -/
theorem fetch_failures_propagate_unchanged (c : BaseAsyncDictionaryApiClient)
    (w : String) (lc : Option LanguageCodes) (url : String)
    (resolved : LanguageCodes) (e : FetchError)
    (hbuild : c.generate_url w lc = (url, resolved))
    (hfail : c.fetch_api_response url = .error e ∨
      ∃ s b, c.fetch_api_response url = .ok (s, b) ∧
        c.analyze_response url s b = .error e) :
    (fetch_json c w lc).result = .error e ∧
    (fetchParser c w lc).result = .error e ∧
    (fetch_word c w lc).result = .error e := by
  have hj : (fetch_json c w lc).result = .error e := by
    obtain h | ⟨s, b, hok, herr⟩ := hfail
    · rw [fetchJson_transport_error c w lc url resolved e hbuild h]
    · rw [fetchJson_ok c w lc url resolved s b hbuild hok]
      exact herr
  refine ⟨hj, ?_, ?_⟩
  · rw [fetchParser_eq]
    dsimp only
    rw [hj]
    rfl
  · rw [fetchWord_eq, fetchParser_eq]
    dsimp only
    rw [hj]
    rfl

/-- Witness for C3 at the failing client, whose transport raises a
connection error. -/
theorem fetch_failures_propagate_unchanged_witness :
    (fetch_json failClient "hello" none).result =
      .error (.transportError "connection reset") ∧
    (fetchParser failClient "hello" none).result =
      .error (.transportError "connection reset") ∧
    (fetch_word failClient "hello" none).result =
      .error (.transportError "connection reset") :=
  fetch_failures_propagate_unchanged failClient "hello" none demoUrl
    .english (.transportError "connection reset") rfl (Or.inl rfl)

/-- C4: For every word and optional language code, the value returned
by fetch_word is exactly the value of the word accessor of the parser
returned by fetchParser (an accessor failure propagating as such), and
fetch_word performs no collaborator invocation beyond those of
fetchParser. -/
theorem fetch_word_is_parser_word (c : BaseAsyncDictionaryApiClient)
    (w : String) (lc : Option LanguageCodes) :
    (fetch_word c w lc).result =
      ((fetchParser c w lc).result).bind DictionaryApiParser.word ∧
    (fetch_word c w lc).trace = (fetchParser c w lc).trace := by
  rw [fetchWord_eq]
  exact ⟨rfl, rfl⟩

/-- C5: For every word and optional language code, fetchParser returns
a parser constructed from exactly the value returned by fetch_json (the
decoded body passed to the constructor unmodified), performs no further
collaborator invocation, and the parser exposes the parsed result
through its word accessor. -/
theorem fetchParser_wraps_decoded_body (c : BaseAsyncDictionaryApiClient)
    (w : String) (lc : Option LanguageCodes) :
    (fetchParser c w lc).result =
      ((fetch_json c w lc).result).map DictionaryApiParser.mk ∧
    (fetchParser c w lc).trace = (fetch_json c w lc).trace ∧
    (∀ j : Json, (DictionaryApiParser.mk j).data = j) ∧
    (∀ p : DictionaryApiParser, p.word = parse p.data) := by
  rw [fetchParser_eq]
  exact ⟨rfl, rfl, fun j => rfl, fun p => rfl⟩

/-- C6: In every single call to fetch_json, fetchParser or fetch_word,
the transport primitive is invoked exactly once: never re-invoked after
a failure and never skipped, whatever the outcome. -/
theorem transport_invoked_exactly_once (c : BaseAsyncDictionaryApiClient)
    (w : String) (lc : Option LanguageCodes) :
    countTransportCalls (fetch_json c w lc).trace = 1 ∧
    countTransportCalls (fetchParser c w lc).trace = 1 ∧
    countTransportCalls (fetch_word c w lc).trace = 1 := by
  refine ⟨fetchJson_trace_count c w lc, ?_, ?_⟩
  · rw [fetchParser_eq]
    exact fetchJson_trace_count c w lc
  · rw [fetchWord_eq, fetchParser_eq]
    exact fetchJson_trace_count c w lc

/-- C7: A concrete transport supplies only the primitive
fetch_api_response; on any client so built, fetch_json, fetchParser
and fetch_word are fully determined by that single primitive through
the shared pipeline, whatever the unrelated per-client state. -/
theorem single_transport_primitive_suffices
    (t : String → Except FetchError (Int × Json)) (extra : Nat)
    (w : String) (lc : Option LanguageCodes) :
    (fetch_json (mkClient t extra) w lc).result = transport_pipeline t w lc ∧
    (fetchParser (mkClient t extra) w lc).result =
      (transport_pipeline t w lc).map DictionaryApiParser.mk ∧
    (fetch_word (mkClient t extra) w lc).result =
      ((transport_pipeline t w lc).map DictionaryApiParser.mk).bind
        DictionaryApiParser.word := by
  have hj : (fetch_json (mkClient t extra) w lc).result =
      transport_pipeline t w lc := by
    unfold fetch_json transport_pipeline mkClient
    dsimp only
    cases t (generate_url w lc).1 with
    | error e => rfl
    | ok sb =>
        obtain ⟨s, b⟩ := sb
        dsimp only
        cases analyze_response (generate_url w lc).1 s b <;> rfl
  refine ⟨hj, ?_, ?_⟩
  · rw [fetchParser_eq]
    dsimp only
    rw [hj]
  · rw [fetchWord_eq, fetchParser_eq]
    dsimp only
    rw [hj]

/-- C8: The three fetch operations take the same word and optional
language code; an omitted language code is resolved by the URL builder
to the registry default, and the resolved code, not the missing
argument, is what the rest of the call uses: each fetch with no code
behaves identically to the same fetch with the default code, and the
recorded URL-build event carries the resolved default. -/
theorem fetch_same_params_default_language (c : BaseAsyncDictionaryApiClient)
    (w : String) (hgu : c.generate_url = generate_url) :
    fetch_json c w none = fetch_json c w (some DEFAULT_LANGUAGE_CODE) ∧
    fetchParser c w none = fetchParser c w (some DEFAULT_LANGUAGE_CODE) ∧
    fetch_word c w none = fetch_word c w (some DEFAULT_LANGUAGE_CODE) ∧
    (c.generate_url w none).2 = DEFAULT_LANGUAGE_CODE ∧
    ((fetch_json c w none).trace).head? =
      some (.urlBuild (generate_url w none).1 DEFAULT_LANGUAGE_CODE) := by
  have hj : fetch_json c w none = fetch_json c w (some DEFAULT_LANGUAGE_CODE) := by
    unfold fetch_json
    rw [hgu, generate_url_none]
  have hp : fetchParser c w none =
      fetchParser c w (some DEFAULT_LANGUAGE_CODE) := by
    unfold fetchParser
    rw [hj]
  have hw : fetch_word c w none =
      fetch_word c w (some DEFAULT_LANGUAGE_CODE) := by
    unfold fetch_word
    rw [hp]
  refine ⟨hj, hp, hw, by rw [hgu]; rfl, ?_⟩
  exact fetchJson_trace_head c w none (generate_url w none).1
    DEFAULT_LANGUAGE_CODE (by rw [hgu]; rfl)

/-- Witness for C8 at the ok client and the word hello. -/
theorem fetch_same_params_default_language_witness :
    fetch_json okClient "hello" none =
      fetch_json okClient "hello" (some DEFAULT_LANGUAGE_CODE) ∧
    fetchParser okClient "hello" none =
      fetchParser okClient "hello" (some DEFAULT_LANGUAGE_CODE) ∧
    fetch_word okClient "hello" none =
      fetch_word okClient "hello" (some DEFAULT_LANGUAGE_CODE) ∧
    (okClient.generate_url "hello" none).2 = DEFAULT_LANGUAGE_CODE ∧
    ((fetch_json okClient "hello" none).trace).head? =
      some (.urlBuild (generate_url "hello" none).1 DEFAULT_LANGUAGE_CODE) :=
  fetch_same_params_default_language okClient "hello" rfl

/-- C9: Every fetch operation leaves the client value completely
unchanged, whether it returns normally or raises: no field of the
client is written during a fetch. -/
theorem fetch_leaves_client_state_unchanged (c : BaseAsyncDictionaryApiClient)
    (w : String) (lc : Option LanguageCodes) :
    (fetch_json c w lc).client = c ∧
    (fetchParser c w lc).client = c ∧
    (fetch_word c w lc).client = c := by
  refine ⟨fetchJson_client c w lc, ?_, ?_⟩
  · rw [fetchParser_eq]
    exact fetchJson_client c w lc
  · rw [fetchWord_eq, fetchParser_eq]
    exact fetchJson_client c w lc

/-- C10: For fixed implementations of the URL builder, the response
analyzer and the transport primitive, two clients agreeing on those
three collaborators produce identical results and identical traces from
fetch_json, fetchParser and fetch_word on the same word and language
code, whatever their other state: the shared pipeline introduces no
nondeterminism and depends on nothing but its arguments and the three
collaborators. -/
theorem fetch_depends_only_on_collaborators
    (c1 c2 : BaseAsyncDictionaryApiClient) (w : String)
    (lc : Option LanguageCodes)
    (hgu : c1.generate_url = c2.generate_url)
    (ht : c1.fetch_api_response = c2.fetch_api_response)
    (han : c1.analyze_response = c2.analyze_response) :
    (fetch_json c1 w lc).result = (fetch_json c2 w lc).result ∧
    (fetch_json c1 w lc).trace = (fetch_json c2 w lc).trace ∧
    (fetchParser c1 w lc).result = (fetchParser c2 w lc).result ∧
    (fetchParser c1 w lc).trace = (fetchParser c2 w lc).trace ∧
    (fetch_word c1 w lc).result = (fetch_word c2 w lc).result ∧
    (fetch_word c1 w lc).trace = (fetch_word c2 w lc).trace := by
  have hj := fetchJson_congr c1 c2 w lc hgu ht han
  have hr : (fetch_json c1 w lc).result = (fetch_json c2 w lc).result := by
    rw [hj]
  have htr : (fetch_json c1 w lc).trace = (fetch_json c2 w lc).trace := by
    rw [hj]
  refine ⟨hr, htr, ?_, ?_, ?_, ?_⟩
  · rw [fetchParser_eq c1 w lc, fetchParser_eq c2 w lc]
    dsimp only
    rw [hr]
  · rw [fetchParser_eq c1 w lc, fetchParser_eq c2 w lc]
    dsimp only
    rw [htr]
  · rw [fetchWord_eq c1 w lc, fetchWord_eq c2 w lc,
      fetchParser_eq c1 w lc, fetchParser_eq c2 w lc]
    dsimp only
    rw [hr]
  · rw [fetchWord_eq c1 w lc, fetchWord_eq c2 w lc,
      fetchParser_eq c1 w lc, fetchParser_eq c2 w lc]
    dsimp only
    rw [htr]

/-- Witness for C10 at two clients with equal collaborators and
different unrelated state. -/
theorem fetch_depends_only_on_collaborators_witness :
    okClient.extraState ≠ okClient2.extraState ∧
    ((fetch_json okClient "hello" none).result =
        (fetch_json okClient2 "hello" none).result ∧
      (fetch_json okClient "hello" none).trace =
        (fetch_json okClient2 "hello" none).trace ∧
      (fetchParser okClient "hello" none).result =
        (fetchParser okClient2 "hello" none).result ∧
      (fetchParser okClient "hello" none).trace =
        (fetchParser okClient2 "hello" none).trace ∧
      (fetch_word okClient "hello" none).result =
        (fetch_word okClient2 "hello" none).result ∧
      (fetch_word okClient "hello" none).trace =
        (fetch_word okClient2 "hello" none).trace) :=
  ⟨by decide,
    fetch_depends_only_on_collaborators okClient okClient2 "hello" none
      rfl rfl rfl⟩

end FreeDictionaryApi
